import Mathlib

/-!
Verification of the TerraByte geotest microservices core
(microservices/process_query/main.py and microservices/common/azure_client.py)
against its specification.

The Python code is shallowly embedded: JSON documents (what json.loads
materializes) become the inductive type JVal, with Python None and JSON null
conflated as JVal.null, and numbers carried as rationals.  Fallible Python
code becomes Option / Except; an uncaught exception that would abort the
request surfaces as Except.error.
-/

namespace TerraByte

/-- The non-finite values of Python floats: the two infinities and nan.  They
arise from the inf, infinity and nan spellings the float builtin accepts,
from the Infinity, -Infinity and NaN literals json accepts, and from float
literals that overflow the double range. -/
inductive NonFinite where
  | pinf : NonFinite
  | ninf : NonFinite
  | nan : NonFinite

/-- JSON values as Python's json module materializes them.  Finite numbers are
carried as exact rationals (Python distinguishes int and float; no property
verified here depends on that distinction, nor on IEEE rounding of finite
values); non-finite floats are the separate constructor numNF.  JSON null and
Python None are both `null`. -/
inductive JVal where
  | null : JVal
  | bool (b : Bool) : JVal
  | num (q : ℚ) : JVal
  | numNF (x : NonFinite) : JVal
  | str (s : String) : JVal
  | arr (xs : List JVal) : JVal
  | obj (fields : List (String × JVal)) : JVal

/-- A Python float value: finite (an exact rational in this model) or
non-finite. -/
inductive PyNum where
  | fin (q : ℚ) : PyNum
  | nf (x : NonFinite) : PyNum

/-- A Python float embedded back into a JSON document (the payload holds the
converted float values themselves). -/
def pynumToJVal : PyNum → JVal
  | PyNum.fin q => JVal.num q
  | PyNum.nf x => JVal.numNF x

/-- Overflow of a float-valued decimal literal or string conversion.  The
double range ends near 2^1024; the exact round-to-nearest boundary
(2^1024 - 2^970) is approximated by 2^1024, and underflow of tiny values to
zero is not modelled. -/
def floatOverflow (q : ℚ) : Option NonFinite :=
  if (2 : ℚ) ^ 1024 ≤ q then some NonFinite.pinf
  else if q ≤ -((2 : ℚ) ^ 1024) then some NonFinite.ninf
  else none

/-- A value that went through Python float conversion: overflow applies only
when the source text was float-typed (a fraction, an exponent, or a string
conversion); integer literals stay exact ints in Python and never overflow. -/
def finOrOverflow (isFloat : Bool) (q : ℚ) : PyNum :=
  if isFloat then
    match floatOverflow q with
    | some x => PyNum.nf x
    | none => PyNum.fin q
  else PyNum.fin q

/-- JSON whitespace (RFC 8259, what json.loads skips between tokens): space,
tab, line feed, carriage return. -/
def jsonWsChar (c : Char) : Bool :=
  c = ' ' || c = '\t' || c = '\n' || c = '\r'

/-- Drop leading JSON whitespace. -/
def skipWs : List Char → List Char
  | [] => []
  | c :: cs => if jsonWsChar c then skipWs cs else c :: cs

/-- Value of a hexadecimal digit, for the \u escape of JSON strings. -/
def hexDigitVal (c : Char) : Option Nat :=
  if '0' ≤ c ∧ c ≤ '9' then some (c.toNat - '0'.toNat)
  else if 'a' ≤ c ∧ c ≤ 'f' then some (c.toNat - 'a'.toNat + 10)
  else if 'A' ≤ c ∧ c ≤ 'F' then some (c.toNat - 'A'.toNat + 10)
  else none

/-- The single-character escapes of JSON strings. -/
def escapeChar (c : Char) : Option Char :=
  if c = '"' then some '"'
  else if c = '\\' then some '\\'
  else if c = '/' then some '/'
  else if c = 'b' then some (Char.ofNat 8)
  else if c = 'f' then some (Char.ofNat 12)
  else if c = 'n' then some '\n'
  else if c = 'r' then some '\r'
  else if c = 't' then some '\t'
  else none

/-- Parse the body of a JSON string, the opening quote already consumed;
returns the string and the input after the closing quote. -/
def parseStrBody (acc : List Char) : List Char → Option (String × List Char)
  | [] => none
  | c :: cs =>
    if c = '"' then some (String.mk acc.reverse, cs)
    else if c = '\\' then
      match cs with
      | 'u' :: h1 :: h2 :: h3 :: h4 :: cs2 =>
        match hexDigitVal h1, hexDigitVal h2, hexDigitVal h3, hexDigitVal h4 with
        | some a, some b, some c', some d =>
          parseStrBody (Char.ofNat (((a * 16 + b) * 16 + c') * 16 + d) :: acc) cs2
        | _, _, _, _ => none
      | e :: cs2 =>
        match escapeChar e with
        | some d => parseStrBody (d :: acc) cs2
        | none => none
      | [] => none
    else parseStrBody (c :: acc) cs

/-- Digits taken greedily from the front of the input, as values. -/
def takeDigits : List Char → List Nat × List Char
  | [] => ([], [])
  | c :: cs =>
    if c.isDigit then
      let (ds, rest) := takeDigits cs
      ((c.toNat - '0'.toNat) :: ds, rest)
    else ([], c :: cs)

/-- A digit sequence read as a natural number. -/
def digitsToNat (ds : List Nat) : Nat :=
  ds.foldl (fun a d => a * 10 + d) 0

/-- The integer part of a JSON number: a lone 0, or a nonzero digit followed
by digits (JSON forbids leading zeros). -/
def parseIntPart : List Char → Option (Nat × List Char)
  | [] => none
  | '0' :: cs => some (0, cs)
  | c :: cs =>
    if c.isDigit then
      let (ds, rest) := takeDigits cs
      some (digitsToNat ((c.toNat - '0'.toNat) :: ds), rest)
    else none

/-- Exponent digits with their sign applied. -/
def parseExpDigits (sign : Bool) (cs : List Char) : Option (Int × List Char) :=
  match takeDigits cs with
  | ([], _) => none
  | (ds, rest) =>
    some (if sign then -(digitsToNat ds : Int) else (digitsToNat ds : Int), rest)

/-- A JSON number literal (sign, integer part, optional fraction, optional
exponent), plus the non-standard -Infinity literal Python's json accepts here.
A literal with a fraction or an exponent is a Python float and overflows the
double range to an infinity; a plain integer literal stays an exact int. -/
def parseNumLit (cs0 : List Char) : Option (PyNum × List Char) :=
  match cs0 with
  | '-' :: 'I' :: 'n' :: 'f' :: 'i' :: 'n' :: 'i' :: 't' :: 'y' :: r =>
    some (PyNum.nf NonFinite.ninf, r)
  | _ =>
  let signed : Bool × List Char :=
    match cs0 with
    | '-' :: cs => (true, cs)
    | cs => (false, cs)
  match parseIntPart signed.2 with
  | none => none
  | some (ip, cs2) =>
    let fracRes : Option (Bool × ℚ × List Char) :=
      match cs2 with
      | '.' :: cs3 =>
        match takeDigits cs3 with
        | ([], _) => none
        | (ds, rest) => some (true, (digitsToNat ds : ℚ) / ((10 : ℚ) ^ ds.length), rest)
      | _ => some (false, 0, cs2)
    match fracRes with
    | none => none
    | some (hasFrac, fq, cs4) =>
      let expRes : Option (Bool × Int × List Char) :=
        match cs4 with
        | 'e' :: cs5 =>
          (match cs5 with
           | '+' :: cs6 => (parseExpDigits false cs6).map (fun p => (true, p.1, p.2))
           | '-' :: cs6 => (parseExpDigits true cs6).map (fun p => (true, p.1, p.2))
           | cs6 => (parseExpDigits false cs6).map (fun p => (true, p.1, p.2)))
        | 'E' :: cs5 =>
          (match cs5 with
           | '+' :: cs6 => (parseExpDigits false cs6).map (fun p => (true, p.1, p.2))
           | '-' :: cs6 => (parseExpDigits true cs6).map (fun p => (true, p.1, p.2))
           | cs6 => (parseExpDigits false cs6).map (fun p => (true, p.1, p.2)))
        | _ => some (false, 0, cs4)
      match expRes with
      | none => none
      | some (hasExp, ex, cs7) =>
        let base : ℚ := (ip : ℚ) + fq
        let signedQ : ℚ := if signed.1 then -base else base
        let valued : ℚ :=
          if 0 ≤ ex then signedQ * (10 : ℚ) ^ ex.toNat
          else signedQ / (10 : ℚ) ^ (-ex).toNat
        some (finOrOverflow (hasFrac || hasExp) valued, cs7)

/-- Insertion of one parsed object member in front of the members parsed after
it, with Python dict semantics for a duplicated key: the earliest occurrence
keeps its position, the latest assignment keeps its value. -/
def objInsert (k : String) (v : JVal) (fs : List (String × JVal)) :
    List (String × JVal) :=
  match fs.find? (fun kv => kv.1 == k) with
  | some kv => (k, kv.2) :: fs.filter (fun kv => kv.1 != k)
  | none => (k, v) :: fs

/-- What parseCore is parsing: a value, the members of an object (after the
opening brace, at a key), or the items of an array (after the opening
bracket, at a value). -/
inductive PMode where
  | value : PMode
  | members : PMode
  | items : PMode

/-- Recursive-descent JSON parser (the model of json.loads), fuelled so that it
is structurally recursive and kernel-reducible.  Member mode only ever returns
obj values and item mode only arr values, re-destructured so each branch of
value mode visibly returns one constructor. -/
def parseCore : Nat → PMode → List Char → Option (JVal × List Char)
  | 0, _, _ => none
  | Nat.succ fuel, PMode.value, cs =>
    match skipWs cs with
    | [] => none
    | c :: rest =>
      if c = '{' then
        match skipWs rest with
        | '}' :: r2 => some (JVal.obj [], r2)
        | _ =>
          match parseCore fuel PMode.members rest with
          | some (JVal.obj fs, r) => some (JVal.obj fs, r)
          | _ => none
      else if c = '[' then
        match skipWs rest with
        | ']' :: r2 => some (JVal.arr [], r2)
        | _ =>
          match parseCore fuel PMode.items rest with
          | some (JVal.arr xs, r) => some (JVal.arr xs, r)
          | _ => none
      else if c = '"' then
        match parseStrBody [] rest with
        | some (s, r) => some (JVal.str s, r)
        | none => none
      else if c = 't' then
        match rest with
        | 'r' :: 'u' :: 'e' :: r => some (JVal.bool true, r)
        | _ => none
      else if c = 'f' then
        match rest with
        | 'a' :: 'l' :: 's' :: 'e' :: r => some (JVal.bool false, r)
        | _ => none
      else if c = 'n' then
        match rest with
        | 'u' :: 'l' :: 'l' :: r => some (JVal.null, r)
        | _ => none
      else if c = 'I' then
        match rest with
        | 'n' :: 'f' :: 'i' :: 'n' :: 'i' :: 't' :: 'y' :: r =>
          some (JVal.numNF NonFinite.pinf, r)
        | _ => none
      else if c = 'N' then
        match rest with
        | 'a' :: 'N' :: r => some (JVal.numNF NonFinite.nan, r)
        | _ => none
      else
        match parseNumLit (c :: rest) with
        | some (PyNum.fin q, r) => some (JVal.num q, r)
        | some (PyNum.nf x, r) => some (JVal.numNF x, r)
        | none => none
  | Nat.succ fuel, PMode.members, cs =>
    match skipWs cs with
    | '"' :: rest =>
      match parseStrBody [] rest with
      | none => none
      | some (k, r1) =>
        match skipWs r1 with
        | ':' :: r2 =>
          match parseCore fuel PMode.value r2 with
          | none => none
          | some (v, r3) =>
            match skipWs r3 with
            | ',' :: r4 =>
              match parseCore fuel PMode.members r4 with
              | some (JVal.obj fs2, r5) => some (JVal.obj (objInsert k v fs2), r5)
              | _ => none
            | '}' :: r4 => some (JVal.obj [(k, v)], r4)
            | _ => none
        | _ => none
    | _ => none
  | Nat.succ fuel, PMode.items, cs =>
    match parseCore fuel PMode.value cs with
    | none => none
    | some (v, r1) =>
      match skipWs r1 with
      | ',' :: r2 =>
        match parseCore fuel PMode.items r2 with
        | some (JVal.arr vs, r3) => some (JVal.arr (v :: vs), r3)
        | _ => none
      | ']' :: r2 => some (JVal.arr [v], r2)
      | _ => none

/-- Model of json.loads: parse one JSON value and require that only whitespace
remains. -/
def jsonLoads (s : String) : Option JVal :=
  let cs := s.toList
  match parseCore (2 * cs.length + 8) PMode.value cs with
  | some (v, rest) => if skipWs rest = [] then some v else none
  | none => none

/-! Python-level helpers shared by the embedded functions. -/

/-- Python truthiness of a JSON value: None, False, 0, the empty string and
empty containers are falsy; infinities and nan are truthy. -/
def pyTruthy : JVal → Bool
  | JVal.null => false
  | JVal.bool b => b
  | JVal.num q => !(decide (q = 0))
  | JVal.numNF _ => true
  | JVal.str s => !(s == "")
  | JVal.arr xs => !xs.isEmpty
  | JVal.obj fs => !fs.isEmpty

/-- Whether the value is a Python dict (a JSON object). -/
def isDict : JVal → Bool
  | JVal.obj _ => true
  | _ => false

/-- Whether the value is a Python list (a JSON array). -/
def isList : JVal → Bool
  | JVal.arr _ => true
  | _ => false

/-- Whether the value is None (JSON null). -/
def isNull : JVal → Bool
  | JVal.null => true
  | _ => false

/-- Lookup of a key in a parsed object's field list. -/
def lookupField (fs : List (String × JVal)) (k : String) : Option JVal :=
  match fs.find? (fun kv => kv.1 == k) with
  | some kv => some kv.2
  | none => none

/-- Python `k in d` on a dict (false on anything else, used only under an
isinstance guard). -/
def hasKey (v : JVal) (k : String) : Bool :=
  match v with
  | JVal.obj fs => (lookupField fs k).isSome
  | _ => false

/-- Python d.get(k) on a dict: an absent key gives None, which is conflated
with a stored JSON null (both are Python None). -/
def pyGet (v : JVal) (k : String) : JVal :=
  match v with
  | JVal.obj fs => (lookupField fs k).getD JVal.null
  | _ => JVal.null

/-- Python v.get(k) where v may not be a dict: on a non-dict the attribute
access raises (modelled as none); used where the source wraps the access in
try/except. -/
def dictGetOpt (v : JVal) (k : String) : Option JVal :=
  match v with
  | JVal.obj fs => some ((lookupField fs k).getD JVal.null)
  | _ => none

/-- Numeric value a JSON value contributes to Python arithmetic: ints/floats
and bools (True is 1).  Strings, None and containers make the arithmetic of
the source raise TypeError, which every caller catches.  Non-finite values
fall outside the exact-rational coordinate model: where Python would
propagate inf/nan through the centroid arithmetic into the emitted
coordinate, such a bbox derives no coordinate here. -/
def toNum : JVal → Option ℚ
  | JVal.num q => some q
  | JVal.bool b => some (if b then 1 else 0)
  | _ => none

/-- Python str.strip() whitespace (the ASCII cases). -/
def pyWsChar (c : Char) : Bool :=
  c = ' ' || c = '\t' || c = '\n' || c = '\r' || c = Char.ofNat 11 || c = Char.ofNat 12

/-- Python str.strip(). -/
def pyStrip (s : String) : String :=
  String.mk (((s.toList.dropWhile pyWsChar).reverse.dropWhile pyWsChar).reverse)

/-- Model of the float builtin applied to a string: optional surrounding
whitespace and sign, then either one of the case-insensitive inf, infinity
or nan spellings (which succeed with a non-finite value), or decimal digits
with optional fraction and exponent, overflowing the double range to an
infinity. -/
def floatOfString (s : String) : Option PyNum :=
  let cs0 := ((s.toList.dropWhile pyWsChar).reverse.dropWhile pyWsChar).reverse
  let signed : Bool × List Char :=
    match cs0 with
    | '+' :: cs => (false, cs)
    | '-' :: cs => (true, cs)
    | cs => (false, cs)
  let low := signed.2.map Char.toLower
  if low = ['i', 'n', 'f'] || low = ['i', 'n', 'f', 'i', 'n', 'i', 't', 'y'] then
    some (PyNum.nf (if signed.1 then NonFinite.ninf else NonFinite.pinf))
  else if low = ['n', 'a', 'n'] then
    some (PyNum.nf NonFinite.nan)
  else
  let (ids, cs2) := takeDigits signed.2
  let fracStep : Option (ℚ × List Char) :=
    match cs2 with
    | '.' :: r =>
      let (fds, cs3) := takeDigits r
      if ids.isEmpty && fds.isEmpty then none
      else some ((digitsToNat fds : ℚ) / ((10 : ℚ) ^ fds.length), cs3)
    | _ =>
      if ids.isEmpty then none else some (0, cs2)
  match fracStep with
  | none => none
  | some (fq, cs4) =>
    let expStep : Option (Int × List Char) :=
      match cs4 with
      | 'e' :: cs5 =>
        (match cs5 with
         | '+' :: cs6 => parseExpDigits false cs6
         | '-' :: cs6 => parseExpDigits true cs6
         | cs6 => parseExpDigits false cs6)
      | 'E' :: cs5 =>
        (match cs5 with
         | '+' :: cs6 => parseExpDigits false cs6
         | '-' :: cs6 => parseExpDigits true cs6
         | cs6 => parseExpDigits false cs6)
      | _ => some (0, cs4)
    match expStep with
    | none => none
    | some (ex, cs7) =>
      if cs7.isEmpty then
        let base : ℚ := (digitsToNat ids : ℚ) + fq
        let signedQ : ℚ := if signed.1 then -base else base
        some (finOrOverflow true
          (if 0 ≤ ex then signedQ * (10 : ℚ) ^ ex.toNat
           else signedQ / (10 : ℚ) ^ (-ex).toNat))
      else none

/-- Model of the float builtin: floats (finite or not) convert to themselves,
bools to 0/1, strings parse (possibly to a non-finite value), an int at or
beyond the double range raises OverflowError, and everything else raises
TypeError/ValueError (none; callers catch). -/
def pyFloat : JVal → Option PyNum
  | JVal.num q =>
    if q.den = 1 ∧ (2 : ℚ) ^ 1024 ≤ |q| then none
    else some (PyNum.fin q)
  | JVal.numNF x => some (PyNum.nf x)
  | JVal.bool b => some (PyNum.fin (if b then 1 else 0))
  | JVal.str s => floatOfString s
  | _ => none

/-- Decimal-ish rendering of a rational for pyRepr.  Python prints floats in
decimal notation; a non-integral value is rendered here as num/den, an
approximation no verified property depends on. -/
def ratStr (q : ℚ) : String :=
  if q.den = 1 then toString q.num else toString q.num ++ "/" ++ toString q.den

/-- Model of Python repr on JSON values (str falls back to repr for
containers).  String quoting is simplified to plain single quotes. -/
def pyRepr : JVal → String
  | JVal.null => "None"
  | JVal.bool b => if b then "True" else "False"
  | JVal.num q => ratStr q
  | JVal.numNF NonFinite.pinf => "inf"
  | JVal.numNF NonFinite.ninf => "-inf"
  | JVal.numNF NonFinite.nan => "nan"
  | JVal.str s => "'" ++ s ++ "'"
  | JVal.arr xs => "[" ++ pyReprItems xs ++ "]"
  | JVal.obj fs => "\x7b" ++ pyReprFields fs ++ "\x7d"
where
  pyReprItems : List JVal → String
    | [] => ""
    | [x] => pyRepr x
    | x :: xs => pyRepr x ++ ", " ++ pyReprItems xs
  pyReprFields : List (String × JVal) → String
    | [] => ""
    | [kv] => "'" ++ kv.1 ++ "': " ++ pyRepr kv.2
    | kv :: fs => "'" ++ kv.1 ++ "': " ++ pyRepr kv.2 ++ ", " ++ pyReprFields fs

/-- Model of the str builtin on JSON values: strings are themselves, the rest
as Python prints them. -/
def pyStr : JVal → String
  | JVal.str s => s
  | JVal.null => "None"
  | JVal.bool b => if b then "True" else "False"
  | JVal.num q => ratStr q
  | JVal.numNF x => pyRepr (JVal.numNF x)
  | JVal.arr xs => pyRepr (JVal.arr xs)
  | JVal.obj fs => pyRepr (JVal.obj fs)

/-- Python `a or b`. -/
def pyOr (a b : JVal) : JVal :=
  if pyTruthy a then a else b

/-!  common/azure_client.py : parse_json_or_text (lines 151-178), the
Structured Extractor. -/

/-- What parse_json_or_text returns: a parsed JSON value, or the raw
(stripped) text when no JSON was found. -/
inductive PResult where
  | json (v : JVal) : PResult
  | text (s : String) : PResult

/-- Index of the first occurrence of a character (Python str.index). -/
def firstIdxOf (c : Char) : List Char → Option Nat
  | [] => none
  | a :: l => if a = c then some 0 else (firstIdxOf c l).map (· + 1)

/-- Index of the last occurrence of a character (Python str.rindex). -/
def lastIdxOf (c : Char) (cs : List Char) : Option Nat :=
  match firstIdxOf c cs.reverse with
  | some k => some (cs.length - 1 - k)
  | none => none

/-- The substring of s from its first open brace to its last close brace,
inclusive (Python text[text.index(s1) : text.rindex(s2) + 1]); none when
either brace is absent. -/
def braceSubstring (s : String) : Option String :=
  match firstIdxOf '\x7b' s.toList with
  | none => none
  | some i =>
    match lastIdxOf '\x7d' s.toList with
    | none => none
    | some j => some (String.mk ((s.toList.drop i).take (j + 1 - i)))

/-- azure_client.parse_json_or_text: try json.loads on the stripped text, then
on the first-brace-to-last-brace substring, else return the raw stripped text
(the empty input short-circuits to the empty string). -/
def parse_json_or_text (t : String) : PResult :=
  if t == "" then PResult.text ""
  else
    match jsonLoads (pyStrip t) with
    | some v => PResult.json v
    | none =>
      match braceSubstring (pyStrip t) with
      | some sub =>
        match jsonLoads sub with
        | some v => PResult.json v
        | none => PResult.text (pyStrip t)
      | none => PResult.text (pyStrip t)

/-- The structured extractor at the call sites: the parse result when it is a
JSON object (Python isinstance(parsed, dict)), nothing otherwise
(azure_client.py line 151-178 with process_query/main.py line 111). -/
def extractObj (t : String) : Option (List (String × JVal)) :=
  match parse_json_or_text t with
  | PResult.json (JVal.obj fs) => some fs
  | _ => none

/-!  process_query/main.py : extract_content_and_bbox (lines 79-131). -/

/-- The structured result of the intent-extraction stage: the dict
extract_content_and_bbox returns.  content and location may be arbitrary JSON
values (the source takes whatever truthy value the assistant returned); bbox
is None or the list of exactly four floats built on lines 117-121 — floats,
not necessarily finite ones: float("inf")/float("nan") succeed there. -/
structure Intent where
  content : JVal
  location : JVal
  bbox : Option (List PyNum)

/-- How the external assistant call went: the client was not configured
(build_azure_client returned None), the call or the SDK raised, or it
returned raw model text. -/
inductive AssistantOutcome where
  | unavailable : AssistantOutcome
  | failure : AssistantOutcome
  | reply (raw : String) : AssistantOutcome

/-- The fallback intent of lines 89, 128 and 131:
content = user_input, location = None, bbox = None. -/
def fallbackIntent (ui : String) : Intent :=
  ⟨JVal.str ui, JVal.null, none⟩

/-- extract_content_and_bbox.  The assistant interaction is abstracted into
the outcome argument; the parsing and validation of its reply follows
lines 109-131 of the source. -/
def extract_content_and_bbox (ui : String) (outcome : AssistantOutcome) : Intent :=
  match outcome with
  | AssistantOutcome.unavailable => fallbackIntent ui
  | AssistantOutcome.failure => fallbackIntent ui
  | AssistantOutcome.reply raw =>
    match parse_json_or_text raw with
    | PResult.json (JVal.obj fs) =>
      let parsed := JVal.obj fs
      let content := pyOr (pyGet parsed "content") (pyOr (pyGet parsed "query") (JVal.str ui))
      let location := pyOr (pyGet parsed "location") (pyOr (pyGet parsed "place") JVal.null)
      let bbox0 := if hasKey parsed "bbox" then pyGet parsed "bbox" else JVal.null
      let bbox : Option (List PyNum) :=
        match bbox0 with
        | JVal.arr (a :: b :: c :: d :: _) =>
          (match pyFloat a, pyFloat b, pyFloat c, pyFloat d with
           | some qa, some qb, some qc, some qd => some [qa, qb, qc, qd]
           | _, _, _, _ => none)
        | _ => none
      ⟨content, location, bbox⟩
    | _ => fallbackIntent ui

/-!  process_query/main.py : payload construction (lines 148-189). -/

/-- The nested wrapper shape the geosearch contract requires for a bbox
(lines 177-184), holding the four converted float values (finite or not). -/
def wrappedBBox (a b c d : PyNum) : JVal :=
  JVal.obj [("bbox", JVal.obj [("min", JVal.obj [("x", pynumToJVal a), ("y", pynumToJVal b)]),
                               ("max", JVal.obj [("x", pynumToJVal c), ("y", pynumToJVal d)])]),
            ("srid", JVal.num 4326)]

/-- Lines 148-153: content starts as req.query or the empty string; when the
query is truthy the intent stage runs and content may be replaced by the
extracted content. -/
def queryIntent (query : Option String) (outcome : AssistantOutcome) :
    JVal × Option (List PyNum) :=
  match query with
  | none => (JVal.str "", none)
  | some q =>
    if q == "" then (JVal.str "", none)
    else
      let parsed := extract_content_and_bbox q outcome
      (pyOr parsed.content (JVal.str q), parsed.bbox)

/-- Lines 155-189: the search payload.  text is included when content is
truthy; bbox only when the extraction stage produced one (a falsy or short
list is skipped: the float conversions would raise IndexError, caught on
line 187). -/
def buildPayload (content : JVal) (bbox : Option (List PyNum)) : JVal :=
  let p1 : List (String × JVal) :=
    if pyTruthy content then [("text", content)] else []
  let p2 : List (String × JVal) :=
    match bbox with
    | none => p1
    | some [] => p1
    | some (a :: b :: c :: d :: _) => p1 ++ [("bbox", wrappedBBox a b c d)]
    | some _ => p1
  JVal.obj p2

/-!  process_query/main.py : per-tile aggregation (lines 222-317). -/

/-- Line 233: metadata = tile.get("metadata", \x7b\x7d) if isinstance(tile, dict)
else \x7b\x7d.  The dict default applies only when the key is absent; a stored
null stays None. -/
def metadataOf (tile : JVal) : JVal :=
  match tile with
  | JVal.obj fs =>
    (match lookupField fs "metadata" with
     | some v => v
     | none => JVal.obj [])
  | _ => JVal.obj []

/-- Lines 237-243: the raw bbox candidate.  The rewrap branch of line 239
requires metadata.get("bbox") to be None and a dict at once and can never
fire; it is kept verbatim.  Then the misc fallback. -/
def rawBBoxOf (m : JVal) : JVal :=
  let r0 := pyGet m "bbox"
  let r1 :=
    if isNull r0 && isDict (pyGet m "bbox") && hasKey (pyGet m "bbox") "bbox"
    then pyGet (pyGet m "bbox") "bbox" else r0
  if isNull r1 && isDict (pyGet m "misc")
  then pyGet (pyGet m "misc") "bbox" else r1

/-- Lines 251-259, the try block of the min/max shape: any attribute error on
a non-dict member is caught and leaves bbox_meta as None; Python None among
the four coordinates also leaves it None. -/
def minMaxFields (r : JVal) : Option JVal :=
  match dictGetOpt (pyGet r "min") "x", dictGetOpt (pyGet r "min") "y",
        dictGetOpt (pyGet r "max") "x", dictGetOpt (pyGet r "max") "y" with
  | some a, some b, some c, some d =>
    if isNull a || isNull b || isNull c || isNull d then none
    else some (JVal.arr [a, b, c, d])
  | _, _, _, _ => none

/-- Lines 245-267: normalize the raw bbox candidate into a positional list.
A dict is unwrapped one level through its bbox key unless the nested value is
a list (line 247); when the unwrapped value is neither a dict nor matched by
the min/max branch, line 262 calls .keys() on it, which for a non-dict raises
an uncaught AttributeError — modelled as Except.error, aborting the request. -/
def normalizeRawBBox (raw : JVal) : Except Unit (Option JVal) :=
  match raw with
  | JVal.obj _ =>
    let r := if hasKey raw "bbox" && !(isList (pyGet raw "bbox"))
             then pyGet raw "bbox" else raw
    if isDict r && hasKey r "min" && hasKey r "max" then
      Except.ok (minMaxFields r)
    else if !(isDict r) then
      Except.error ()
    else if hasKey r "xmin" && hasKey r "ymin" && hasKey r "xmax" && hasKey r "ymax" then
      Except.ok (some (JVal.arr [pyGet r "xmin", pyGet r "ymin", pyGet r "xmax", pyGet r "ymax"]))
    else if hasKey r "left" && hasKey r "bottom" && hasKey r "right" && hasKey r "top" then
      Except.ok (some (JVal.arr [pyGet r "left", pyGet r "bottom", pyGet r "right", pyGet r "top"]))
    else Except.ok none
  | JVal.arr xs => Except.ok (some (JVal.arr xs))
  | _ => Except.ok none

/-- centroid_from_bbox (main.py lines 39-76).  The Python None argument is the
conflated JVal.null; the falsy check of line 47 guards everything; arithmetic
on non-numeric members raises TypeError, caught on line 74. -/
def centroid_from_bbox (bbox : JVal) : Option (ℚ × ℚ) :=
  if !(pyTruthy bbox) then none
  else
    match bbox with
    | JVal.arr (a :: b :: c :: d :: _) =>
      (match toNum a, toNum b, toNum c, toNum d with
       | some x0, some y0, some x1, some y1 => some ((y0 + y1) / 2, (x0 + x1) / 2)
       | _, _, _, _ => none)
    | JVal.obj _ =>
      if hasKey bbox "xmin" && hasKey bbox "ymin" && hasKey bbox "xmax" && hasKey bbox "ymax" then
        (match toNum (pyGet bbox "xmin"), toNum (pyGet bbox "ymin"),
               toNum (pyGet bbox "xmax"), toNum (pyGet bbox "ymax") with
         | some x0, some y0, some x1, some y1 => some ((y0 + y1) / 2, (x0 + x1) / 2)
         | _, _, _, _ => none)
      else if hasKey bbox "left" && hasKey bbox "bottom" && hasKey bbox "right" && hasKey bbox "top" then
        (match toNum (pyGet bbox "left"), toNum (pyGet bbox "bottom"),
               toNum (pyGet bbox "right"), toNum (pyGet bbox "top") with
         | some x0, some y0, some x1, some y1 => some ((y0 + y1) / 2, (x0 + x1) / 2)
         | _, _, _, _ => none)
      else none
    | _ => none

/-- Lines 245-269 as one map: normalize the raw bbox candidate, then feed the
resulting bbox_meta (None when nothing matched) to centroid_from_bbox. -/
def normalizeThenCentroid (raw : JVal) : Except Unit (Option (ℚ × ℚ)) :=
  match normalizeRawBBox raw with
  | Except.error e => Except.error e
  | Except.ok bm => Except.ok (centroid_from_bbox (bm.getD JVal.null))

/-- Lines 274-281: the first key of the list that is present with a non-None
value. -/
def firstPresentKey (m : JVal) (keys : List String) : Option JVal :=
  match keys with
  | [] => none
  | k :: ks =>
    if hasKey m k && !(isNull (pyGet m k)) then some (pyGet m k)
    else firstPresentKey m ks

/-- Lines 271-286: the explicit lat/lon fallback over the metadata dict.
Coordinates are exact rationals in this model: a lat/lon pair whose float
conversion succeeds with a non-finite value (e.g. the string "inf") is
emitted by Python but derives no coordinate here. -/
def latlonFallback (m : JVal) : Option (ℚ × ℚ) :=
  if isDict m then
    match firstPresentKey m ["lat", "latitude", "y"],
          firstPresentKey m ["lon", "lng", "longitude", "x"] with
    | some la, some lo =>
      (match pyFloat la, pyFloat lo with
       | some (PyNum.fin qa), some (PyNum.fin qo) => some (qa, qo)
       | _, _ => none)
    | _, _ => none
  else none

/-- Lines 235-286: the tile coordinate.  When metadata is not a dict the bbox
machinery is skipped and bbox_meta stays None; a None centroid falls back to
the explicit lat/lon keys. -/
def deriveLatlon (m : JVal) : Except Unit (Option (ℚ × ℚ)) :=
  let step : Except Unit (Option (ℚ × ℚ)) :=
    if isDict m then normalizeThenCentroid (rawBBoxOf m)
    else Except.ok (centroid_from_bbox JVal.null)
  match step with
  | Except.error e => Except.error e
  | Except.ok (some p) => Except.ok (some p)
  | Except.ok none => Except.ok (latlonFallback m)

/-- Lines 288-293: the caption, by truthiness of metadata.get("caption")
(str() on a JSON value never raises, so the except branch is dead). -/
def captionOf (m : JVal) : String :=
  if isDict m && pyTruthy (pyGet m "caption") then pyStr (pyGet m "caption") else ""

/-- Lines 296-307: the thumbnail data URL from tile.data. -/
def thumbnailOf (tile : JVal) : Option String :=
  let dnode : JVal :=
    match tile with
    | JVal.obj fs => (lookupField fs "data").getD JVal.null
    | _ => JVal.null
  if isDict dnode && pyTruthy (pyGet dnode "base64_data") then
    let mime : String :=
      match pyGet dnode "type" with
      | JVal.str s =>
        if !(s == "") && s.toList.contains ',' then
          String.mk (s.toList.takeWhile (fun c => !(c = ',')))
        else "image/jpeg"
      | _ => "image/jpeg"
    some ("data:" ++ mime ++ ";base64," ++ pyStr (pyGet dnode "base64_data"))
  else none

/-- One loop iteration over a tile (lines 227-317): the emitted
(coordinate, caption, thumbnail) triple, none when the tile is skipped, or
Except.error when the iteration raises. -/
def processTile (tile : JVal) : Except Unit (Option ((ℚ × ℚ) × String × Option String)) :=
  let m := metadataOf tile
  match deriveLatlon m with
  | Except.error e => Except.error e
  | Except.ok latlon =>
    let cap := captionOf m
    let thumb := thumbnailOf tile
    (match latlon with
     | some p => Except.ok (some (p, cap, thumb))
     | none => Except.ok none)

/-- The three index-aligned output sequences being accumulated. -/
structure AggResult where
  lat_longs : List (ℚ × ℚ)
  captions : List String
  thumbnails : List (Option String)
  deriving Repr

/-- The empty accumulator of lines 223-225. -/
def emptyAgg : AggResult := ⟨[], [], []⟩

/-- Lines 309-317: a usable tile appends to all three sequences, a skipped
one to none. -/
def aggStep (acc : AggResult) (tile : JVal) : Except Unit AggResult :=
  match processTile tile with
  | Except.error e => Except.error e
  | Except.ok none => Except.ok acc
  | Except.ok (some (p, cap, th)) =>
    Except.ok ⟨acc.lat_longs ++ [p], acc.captions ++ [cap], acc.thumbnails ++ [th]⟩

/-- The tile loop (line 227), aborting on the first uncaught exception. -/
def runTiles (acc : AggResult) : List JVal → Except Unit AggResult
  | [] => Except.ok acc
  | t :: ts =>
    match aggStep acc t with
    | Except.error e => Except.error e
    | Except.ok acc2 => runTiles acc2 ts

/-- Line 222: tiles = data.get("tiles", []) if isinstance(data, dict) else [].
The list default applies only when the key is absent. -/
def tilesOf (data : JVal) : JVal :=
  match data with
  | JVal.obj fs => (lookupField fs "tiles").getD (JVal.arr [])
  | _ => JVal.arr []

/-- Python iteration for the for-loop of line 227: lists iterate their
elements, strings their single-character substrings, dicts their keys;
iterating None, a number or a bool raises TypeError. -/
def pyIter : JVal → Option (List JVal)
  | JVal.arr xs => some xs
  | JVal.str s => some (s.toList.map (fun c => JVal.str (String.mk [c])))
  | JVal.obj fs => some (fs.map (fun kv => JVal.str kv.1))
  | _ => none

/-- Lines 222-317 over a parsed response document: the three accumulated
sequences, or Except.error when the loop raises (non-iterable tiles value, or
a tile aborting per normalizeRawBBox). -/
def aggregateTiles (data : JVal) : Except Unit AggResult :=
  match pyIter (tilesOf data) with
  | none => Except.error ()
  | some ts => runTiles emptyAgg ts

/-!  process_query/main.py : the geosearch call and response assembly
(lines 193-326). -/

/-- How the geosearch POST went: requests.post raised, or an HTTP response
with a status and a body arrived. -/
inductive GeoOutcome where
  | netError (msg : String) : GeoOutcome
  | response (status : Nat) (body : String) : GeoOutcome

/-- How a request fails: an explicit HTTPException with status and detail, or
an uncaught exception which the serving layer turns into an internal error. -/
inductive ReqFailure where
  | httpError (status : Nat) (detail : String) : ReqFailure
  | crash : ReqFailure

/-- The final response document of lines 319-326. -/
structure QueryResponse where
  lat_longs : List (ℚ × ℚ)
  input_caption : JVal
  captions : List String
  thumbnails : List (Option String)

/-- Lines 193-326 after the POST: a raised request is a 502 with the message
preserved; a non-200 status is re-raised with the upstream status; a body
json.loads rejects is a 502; otherwise the tiles are aggregated and the
response assembled, with input_caption = content or the empty string. -/
def processResponsePhase (content : JVal) (geo : GeoOutcome) :
    Except ReqFailure QueryResponse :=
  match geo with
  | GeoOutcome.netError msg =>
    Except.error (ReqFailure.httpError 502 ("Error contacting geosearch server: " ++ msg))
  | GeoOutcome.response status body =>
    if status ≠ 200 then
      Except.error (ReqFailure.httpError status ("Geosearch returned " ++ toString status))
    else
      match jsonLoads body with
      | none => Except.error (ReqFailure.httpError 502 "Invalid JSON from geosearch")
      | some data =>
        match aggregateTiles data with
        | Except.error _ => Except.error ReqFailure.crash
        | Except.ok agg =>
          Except.ok ⟨agg.lat_longs, pyOr content (JVal.str ""), agg.captions, agg.thumbnails⟩

/-- The whole endpoint (process_query, lines 134-326), with the two external
calls abstracted into their outcomes. -/
def process_query (query : Option String) (outcome : AssistantOutcome)
    (geo : GeoOutcome) : Except ReqFailure QueryResponse :=
  let parsed := queryIntent query outcome
  processResponsePhase parsed.1 geo

/-!  Supporting lemmas. -/

/-- Dropping whitespace only removes characters. -/
lemma mem_of_mem_skipWs (a : Char) : ∀ (cs : List Char), a ∈ skipWs cs → a ∈ cs
  | [] => by simp [skipWs]
  | c :: cs => by
    rw [skipWs]
    by_cases hw : jsonWsChar c
    · rw [if_pos hw]
      intro h
      exact List.mem_cons_of_mem _ (mem_of_mem_skipWs a cs h)
    · rw [if_neg hw]
      intro h
      exact h

/-- A successful value-mode parse that yields an object starts, after
whitespace, at an open brace; so the input contains one. -/
lemma parseCore_value_obj (fuel : Nat) (cs r : List Char) (fs : List (String × JVal))
    (h : parseCore fuel PMode.value cs = some (JVal.obj fs, r)) : '\x7b' ∈ cs := by
  cases fuel with
  | zero => simp [parseCore] at h
  | succ n =>
    rw [parseCore] at h
    split at h
    · simp at h
    next c rest heq =>
      split_ifs at h with h1 h2 h3 h4 h5 h6 h7 h8
      · have hm : c ∈ skipWs cs := by
          rw [heq]
          exact List.mem_cons_self c rest
        exact h1 ▸ mem_of_mem_skipWs c cs hm
      all_goals exfalso
      all_goals (split at h <;> ((try split at h) <;> simp at h))

/-- json.loads only returns an object when the text has an open brace. -/
lemma jsonLoads_obj_mem (s : String) (fs : List (String × JVal))
    (h : jsonLoads s = some (JVal.obj fs)) : '\x7b' ∈ s.toList := by
  simp only [jsonLoads] at h
  split at h
  next v rest hp =>
    split at h
    · have hv : v = JVal.obj fs := by
        simpa using h
      exact parseCore_value_obj _ _ _ _ (hv ▸ hp)
    · simp at h
  next hp => simp at h

/-- Stripping only removes characters. -/
lemma mem_of_mem_pyStrip (a : Char) (s : String) (h : a ∈ (pyStrip s).toList) :
    a ∈ s.toList := by
  have h1 : a ∈ ((s.toList.dropWhile pyWsChar).reverse.dropWhile pyWsChar).reverse := h
  rw [List.mem_reverse] at h1
  have h2 := (List.dropWhile_sublist (l := (s.toList.dropWhile pyWsChar).reverse)
    (p := pyWsChar)).subset h1
  rw [List.mem_reverse] at h2
  exact (List.dropWhile_sublist (l := s.toList) (p := pyWsChar)).subset h2

/-- firstIdxOf misses a character that is not there. -/
lemma firstIdxOf_eq_none_of_not_mem (c : Char) :
    ∀ (cs : List Char), c ∉ cs → firstIdxOf c cs = none
  | [] => by
    intro _
    rfl
  | a :: l => by
    intro h
    have ha : ¬(a = c) := fun e => h (e ▸ List.mem_cons_self a l)
    have hl : c ∉ l := fun e => h (List.mem_cons_of_mem a e)
    rw [firstIdxOf, if_neg ha, firstIdxOf_eq_none_of_not_mem c l hl]
    rfl

/-- braceSubstring needs an open brace. -/
lemma braceSubstring_eq_none (s : String) (h : '\x7b' ∉ s.toList) :
    braceSubstring s = none := by
  rw [braceSubstring, firstIdxOf_eq_none_of_not_mem _ _ h]

/-- The extractor returns an object only when parse_json_or_text parsed that
object. -/
lemma extractObj_eq_some (t : String) (fs : List (String × JVal))
    (h : extractObj t = some fs) :
    parse_json_or_text t = PResult.json (JVal.obj fs) := by
  rw [extractObj] at h
  split at h
  next fs2 hp =>
    injection h with h2
    rw [hp, h2]
  next hp => simp at h

/-- A parse that produced a JSON object came from the whole stripped text or
from its brace-to-brace substring. -/
lemma pjot_json_obj (t : String) (fs : List (String × JVal))
    (h : parse_json_or_text t = PResult.json (JVal.obj fs)) :
    jsonLoads (pyStrip t) = some (JVal.obj fs) ∨
    ∃ sub, braceSubstring (pyStrip t) = some sub ∧ jsonLoads sub = some (JVal.obj fs) := by
  rw [parse_json_or_text] at h
  by_cases ht : (t == "") = true
  · rw [if_pos ht] at h
    simp at h
  · rw [if_neg ht] at h
    split at h
    next v hl =>
      left
      injection h with hv
      rw [hl, hv]
    next hl =>
      split at h
      next sub hb =>
        split at h
        next v hl2 =>
          right
          injection h with hv
          exact ⟨sub, hb, by rw [hl2, hv]⟩
        next => simp at h
      next hb => simp at h

/-!  C1. -/

/-- C1: the claim says a tile from which no coordinate can be derived is
silently dropped without aborting the batch.  The code instead raises an
uncaught AttributeError for a tile whose metadata.bbox is a dict holding,
under its bbox key, a value that is neither a dict nor a list (here null):
line 247 unwraps it and line 262 then calls .keys() on a non-dict.  The whole
aggregation aborts. -/
theorem C1_malformed_tile_aborts_request :
    aggregateTiles (JVal.obj [("tiles", JVal.arr
      [JVal.obj [("metadata", JVal.obj [("bbox", JVal.obj [("bbox", JVal.null)])])]])]) =
    Except.error () := rfl

/-!  C2. -/

/-- C2: a geosearch failure is fatal and explicit: a raised POST becomes a 502
carrying the exception text, a non-2xx status is re-raised with the upstream
status preserved, and a 200 whose body is not JSON becomes a 502; none of
them yields a success result. -/
theorem C2_geosearch_failure_fatal (content : JVal) (msg body : String) (status : Nat) :
    (processResponsePhase content (GeoOutcome.netError msg) =
      Except.error (ReqFailure.httpError 502 ("Error contacting geosearch server: " ++ msg))) ∧
    (¬(200 ≤ status ∧ status < 300) →
      processResponsePhase content (GeoOutcome.response status body) =
        Except.error (ReqFailure.httpError status ("Geosearch returned " ++ toString status))) ∧
    (jsonLoads body = none →
      processResponsePhase content (GeoOutcome.response 200 body) =
        Except.error (ReqFailure.httpError 502 "Invalid JSON from geosearch")) := by
  refine ⟨rfl, ?_, ?_⟩
  · intro h
    have h200 : status ≠ 200 := by omega
    rw [processResponsePhase, if_pos h200]
  · intro h
    rw [processResponsePhase, if_neg (by simp : ¬(200 ≠ 200)), h]

/-- Witness for C2 at concrete inputs: an HTTP 500 response and a 200 with a
non-JSON body both produce the explicit failures. -/
theorem C2_geosearch_failure_fatal_witness :
    (processResponsePhase JVal.null (GeoOutcome.response 500 "oops") =
      Except.error (ReqFailure.httpError 500 ("Geosearch returned " ++ toString 500))) ∧
    (processResponsePhase JVal.null (GeoOutcome.response 200 "oops") =
      Except.error (ReqFailure.httpError 502 "Invalid JSON from geosearch")) :=
  ⟨(C2_geosearch_failure_fatal JVal.null "" "oops" 500).2.1 (by omega),
   (C2_geosearch_failure_fatal JVal.null "" "oops" 500).2.2 rfl⟩

/-!  C3. -/

/-- C3: whenever the assistant is unconfigured, its call raises, or its reply
contains no parseable JSON object, intent extraction returns the fallback
intent (content = the original query text, location = nothing,
bbox = nothing); it never fails the request. -/
theorem C3_assistant_failure_fallback (ui : String) (outcome : AssistantOutcome)
    (_hui : ui ≠ "")
    (hfail : outcome = AssistantOutcome.unavailable ∨ outcome = AssistantOutcome.failure ∨
      ∃ raw, outcome = AssistantOutcome.reply raw ∧ extractObj raw = none) :
    extract_content_and_bbox ui outcome = fallbackIntent ui := by
  rcases hfail with h | h | ⟨raw, hraw, hobj⟩
  · rw [h]
    rfl
  · rw [h]
    rfl
  · rw [hraw]
    rw [extract_content_and_bbox]
    rcases hp : parse_json_or_text raw with v | s
    · cases v with
      | obj fs =>
        exfalso
        rw [extractObj, hp] at hobj
        simp at hobj
      | null => rfl
      | bool b => rfl
      | num q => rfl
      | numNF x => rfl
      | str s => rfl
      | arr xs => rfl
    · rfl

/-- Witness for C3: a failing assistant call on a concrete query falls back. -/
theorem C3_assistant_failure_fallback_witness :
    extract_content_and_bbox "parks in Paris" AssistantOutcome.failure =
      fallbackIntent "parks in Paris" :=
  C3_assistant_failure_fallback "parks in Paris" AssistantOutcome.failure (by decide)
    (Or.inr (Or.inl rfl))

/-!  C4. -/

/-- C4: an input with no open brace yields no object, and an object is only
returned when the whole stripped text, or its first-brace-to-last-brace
substring, parses as that JSON object. -/
theorem C4_extractor_only_objects (t : String) :
    ('\x7b' ∉ t.toList → extractObj t = none) ∧
    (∀ fs, extractObj t = some fs →
      jsonLoads (pyStrip t) = some (JVal.obj fs) ∨
      ∃ sub, braceSubstring (pyStrip t) = some sub ∧ jsonLoads sub = some (JVal.obj fs)) := by
  constructor
  · intro hnb
    rw [extractObj, parse_json_or_text]
    by_cases ht : (t == "") = true
    · rw [if_pos ht]
    · rw [if_neg ht]
      rcases hl : jsonLoads (pyStrip t) with _ | v
      · have hbs : braceSubstring (pyStrip t) = none :=
          braceSubstring_eq_none _ (fun hm => hnb (mem_of_mem_pyStrip _ _ hm))
        rw [hbs]
      · cases v with
        | obj fs => exact absurd (mem_of_mem_pyStrip _ _ (jsonLoads_obj_mem _ _ hl)) hnb
        | null => rfl
        | bool b => rfl
        | num q => rfl
        | numNF x => rfl
        | str s => rfl
        | arr xs => rfl
  · intro fs hfs
    exact pjot_json_obj t fs (extractObj_eq_some t fs hfs)

/-- Witness for C4: a brace-free input extracts nothing. -/
theorem C4_extractor_only_objects_witness : extractObj "no braces here" = none :=
  (C4_extractor_only_objects "no braces here").1 (by decide)

/-!  C5. -/

/-- Counterexample to C5: a keyed metadata.bbox wrapper holding the
positional-list shape under its bbox key.  The claim demands that it be
unwrapped and its centroid (here latitude (0+4)/2 = 2, longitude
(0+2)/2 = 1) become the tile coordinate; line 247 refuses to unwrap a list,
no shape matches the wrapper itself, and the tile yields no entry at all. -/
theorem C5_list_wrapper_counterexample :
    processTile (JVal.obj [("metadata", JVal.obj [("bbox",
      JVal.obj [("bbox", JVal.arr [JVal.num 0, JVal.num 0, JVal.num 2, JVal.num 4])])])]) =
    Except.ok none := rfl

/-- C5 as amended: a keyed metadata.bbox holding, under its bbox key, one of
the three keyed base shapes is unwrapped one level, normalized, and its
centroid becomes the tile coordinate; but a wrapper holding the positional
list shape is not unwrapped and contributes no coordinate. -/
theorem C5_wrapped_bbox_unwrapping (a b c d : ℚ) :
    (processTile (JVal.obj [("metadata", JVal.obj [("bbox", JVal.obj [("bbox",
        JVal.obj [("xmin", JVal.num a), ("ymin", JVal.num b),
                  ("xmax", JVal.num c), ("ymax", JVal.num d)])])])]) =
      Except.ok (some (((b + d) / 2, (a + c) / 2), "", none))) ∧
    (processTile (JVal.obj [("metadata", JVal.obj [("bbox", JVal.obj [("bbox",
        JVal.obj [("left", JVal.num a), ("bottom", JVal.num b),
                  ("right", JVal.num c), ("top", JVal.num d)])])])]) =
      Except.ok (some (((b + d) / 2, (a + c) / 2), "", none))) ∧
    (processTile (JVal.obj [("metadata", JVal.obj [("bbox", JVal.obj [("bbox",
        JVal.obj [("min", JVal.obj [("x", JVal.num a), ("y", JVal.num b)]),
                  ("max", JVal.obj [("x", JVal.num c), ("y", JVal.num d)])])])])]) =
      Except.ok (some (((b + d) / 2, (a + c) / 2), "", none))) ∧
    (processTile (JVal.obj [("metadata", JVal.obj [("bbox", JVal.obj [("bbox",
        JVal.arr [JVal.num a, JVal.num b, JVal.num c, JVal.num d])])])]) =
      Except.ok none) :=
  ⟨rfl, rfl, rfl, rfl⟩

/-!  C6. -/

/-- The extraction stage returns no bbox or a list of exactly four numbers. -/
lemma extract_bbox_shape (ui : String) (outcome : AssistantOutcome) :
    (extract_content_and_bbox ui outcome).bbox = none ∨
    ∃ a b c d : PyNum, (extract_content_and_bbox ui outcome).bbox = some [a, b, c, d] := by
  cases outcome with
  | unavailable => exact Or.inl rfl
  | failure => exact Or.inl rfl
  | reply raw =>
    rw [extract_content_and_bbox]
    rcases hp : parse_json_or_text raw with v | s
    · cases v with
      | obj fs =>
        simp only
        split
        · split
          next qa qb qc qd _ _ _ _ => exact Or.inr ⟨qa, qb, qc, qd, rfl⟩
          next => exact Or.inl rfl
        · exact Or.inl rfl
      | null => exact Or.inl rfl
      | bool b => exact Or.inl rfl
      | num q => exact Or.inl rfl
      | numNF x => exact Or.inl rfl
      | str s => exact Or.inl rfl
      | arr xs => exact Or.inl rfl
    · exact Or.inl rfl

/-- A payload built without a bbox has no bbox field. -/
lemma buildPayload_bbox_none (content : JVal) :
    hasKey (buildPayload content none) "bbox" = false := by
  by_cases h : pyTruthy content = true
  · have : buildPayload content none = JVal.obj [("text", content)] := by
      simp [buildPayload, h]
    rw [this]
    rfl
  · have : buildPayload content none = JVal.obj [] := by
      simp [buildPayload, h]
    rw [this]
    rfl

/-- A payload built with a four-number bbox carries exactly the nested
wrapper shape under its bbox key. -/
lemma buildPayload_bbox_some (content : JVal) (a b c d : PyNum) :
    pyGet (buildPayload content (some [a, b, c, d])) "bbox" = wrappedBBox a b c d ∧
    hasKey (buildPayload content (some [a, b, c, d])) "bbox" = true := by
  by_cases h : pyTruthy content = true
  · have : buildPayload content (some [a, b, c, d]) =
        JVal.obj [("text", content), ("bbox", wrappedBBox a b c d)] := by
      simp [buildPayload, h]
    rw [this]
    exact ⟨rfl, rfl⟩
  · have : buildPayload content (some [a, b, c, d]) =
        JVal.obj [("bbox", wrappedBBox a b c d)] := by
      simp [buildPayload, h]
    rw [this]
    exact ⟨rfl, rfl⟩

/-- Counterexample to C6: the claim's finiteness guard is false of the code.
An assistant reply whose bbox is ["inf", "nan", "-inf", "inf"] passes the
validation of lines 117-121 — the float builtin converts those spellings to
non-finite values — so the intent carries a bbox of four non-finite floats
and the payload is sent with the wrapper shape holding them, where the claim
says a bbox field appears only for four finite numbers. -/
theorem C6_nonfinite_bbox_counterexample :
    (extract_content_and_bbox "q" (AssistantOutcome.reply
        "\x7b\"bbox\": [\"inf\", \"nan\", \"-inf\", \"inf\"]\x7d")).bbox =
      some [PyNum.nf NonFinite.pinf, PyNum.nf NonFinite.nan,
            PyNum.nf NonFinite.ninf, PyNum.nf NonFinite.pinf] ∧
    pyGet (buildPayload
        (extract_content_and_bbox "q" (AssistantOutcome.reply
          "\x7b\"bbox\": [\"inf\", \"nan\", \"-inf\", \"inf\"]\x7d")).content
        (extract_content_and_bbox "q" (AssistantOutcome.reply
          "\x7b\"bbox\": [\"inf\", \"nan\", \"-inf\", \"inf\"]\x7d")).bbox) "bbox" =
      wrappedBBox (PyNum.nf NonFinite.pinf) (PyNum.nf NonFinite.nan)
        (PyNum.nf NonFinite.ninf) (PyNum.nf NonFinite.pinf) :=
  ⟨rfl, rfl⟩

/-- C6 as amended: the payload carries a bbox field exactly when the intent
stage produced a bbox — a list of exactly four float-converted values, which
need not be finite (inf and nan conversions succeed and are sent) — and the
field is then exactly the nested wrapper shape bbox.min.x/y, bbox.max.x/y
with srid 4326 holding those four values; with no bbox the field is omitted
and nothing fails. -/
theorem C6_payload_bbox_exact_shape (ui : String) (outcome : AssistantOutcome) :
    ((extract_content_and_bbox ui outcome).bbox = none →
      hasKey (buildPayload (extract_content_and_bbox ui outcome).content
        (extract_content_and_bbox ui outcome).bbox) "bbox" = false) ∧
    (∀ l, (extract_content_and_bbox ui outcome).bbox = some l →
      ∃ a b c d : PyNum, l = [a, b, c, d] ∧
        pyGet (buildPayload (extract_content_and_bbox ui outcome).content
          (extract_content_and_bbox ui outcome).bbox) "bbox" = wrappedBBox a b c d ∧
        hasKey (buildPayload (extract_content_and_bbox ui outcome).content
          (extract_content_and_bbox ui outcome).bbox) "bbox" = true) := by
  constructor
  · intro h
    rw [h]
    exact buildPayload_bbox_none _
  · intro l hl
    rcases extract_bbox_shape ui outcome with h0 | ⟨a, b, c, d, h4⟩
    · rw [h0] at hl
      simp at hl
    · rw [h4] at hl
      injection hl with hl2
      refine ⟨a, b, c, d, hl2.symm, ?_⟩
      rw [h4]
      exact buildPayload_bbox_some _ a b c d

/-- Witness for C6: a failed extraction yields a payload with no bbox field. -/
theorem C6_payload_bbox_exact_shape_witness :
    hasKey (buildPayload (extract_content_and_bbox "x" AssistantOutcome.failure).content
      (extract_content_and_bbox "x" AssistantOutcome.failure).bbox) "bbox" = false :=
  (C6_payload_bbox_exact_shape "x" AssistantOutcome.failure).1 rfl

/-!  C7. -/

/-- C7: the four supported bbox encodings of one geometry all normalize and
take the centroid to the same (latitude, longitude) = ((minY+maxY)/2,
(minX+maxX)/2) coordinate, within 1e-6 in each component (they are exactly
equal). -/
theorem C7_encodings_same_centroid (a b c d : ℚ) :
    ∃ lat lon : ℚ,
      ∀ e ∈ [JVal.arr [JVal.num a, JVal.num b, JVal.num c, JVal.num d],
             JVal.obj [("xmin", JVal.num a), ("ymin", JVal.num b),
                       ("xmax", JVal.num c), ("ymax", JVal.num d)],
             JVal.obj [("left", JVal.num a), ("bottom", JVal.num b),
                       ("right", JVal.num c), ("top", JVal.num d)],
             JVal.obj [("min", JVal.obj [("x", JVal.num a), ("y", JVal.num b)]),
                       ("max", JVal.obj [("x", JVal.num c), ("y", JVal.num d)])]],
        ∃ lat2 lon2 : ℚ, normalizeThenCentroid e = Except.ok (some (lat2, lon2)) ∧
          |lat2 - lat| ≤ 1 / 1000000 ∧ |lon2 - lon| ≤ 1 / 1000000 := by
  refine ⟨(b + d) / 2, (a + c) / 2, ?_⟩
  have hz : ∀ q : ℚ, |q - q| ≤ 1 / 1000000 := by
    intro q
    rw [sub_self, abs_zero]
    norm_num
  intro e he
  simp only [List.mem_cons, List.not_mem_nil, or_false] at he
  rcases he with rfl | rfl | rfl | rfl
  · exact ⟨(b + d) / 2, (a + c) / 2, rfl, hz _, hz _⟩
  · exact ⟨(b + d) / 2, (a + c) / 2, rfl, hz _, hz _⟩
  · exact ⟨(b + d) / 2, (a + c) / 2, rfl, hz _, hz _⟩
  · exact ⟨(b + d) / 2, (a + c) / 2, rfl, hz _, hz _⟩

/-!  C8 and C10 rest on how the loop treats tiles that are not dicts. -/

/-- A tile that is not a dict is silently skipped: defaults apply everywhere
and no coordinate is derivable. -/
lemma processTile_not_dict (v : JVal) (h : isDict v = false) :
    processTile v = Except.ok none := by
  cases v with
  | null => rfl
  | bool b => rfl
  | num q => rfl
  | numNF x => rfl
  | str s => rfl
  | arr xs => rfl
  | obj fs => simp [isDict] at h

/-- A run over tiles none of which is a dict leaves the accumulator alone. -/
lemma runTiles_all_skipped (ts : List JVal) (h : ∀ t ∈ ts, isDict t = false) :
    ∀ acc, runTiles acc ts = Except.ok acc := by
  induction ts with
  | nil =>
    intro acc
    rfl
  | cons t ts ih =>
    intro acc
    rw [runTiles, aggStep, processTile_not_dict t (h t (List.mem_cons_self t ts))]
    exact ih (fun x hx => h x (List.mem_cons_of_mem t hx)) acc

/-!  C8. -/

/-- Counterexample to C8: a tiles field holding null is not treated like an
empty array; the for-loop raises TypeError and the request aborts. -/
theorem C8_null_tiles_counterexample :
    aggregateTiles (JVal.obj [("tiles", JVal.null)]) = Except.error () := rfl

/-- C8 as amended: a missing tiles field, or a response document that is not
an object, yields a success with three empty sequences; so does a tiles field
holding a string or an object (their iterated elements are strings, skipped
as non-dict tiles); but a tiles field holding null, a number or a boolean is
not iterable and aborts the request. -/
theorem C8_tiles_field_handling :
    (∀ fs, lookupField fs "tiles" = none →
      aggregateTiles (JVal.obj fs) = Except.ok emptyAgg) ∧
    (∀ v, isDict v = false → aggregateTiles v = Except.ok emptyAgg) ∧
    (∀ fs s, lookupField fs "tiles" = some (JVal.str s) →
      aggregateTiles (JVal.obj fs) = Except.ok emptyAgg) ∧
    (∀ fs ks, lookupField fs "tiles" = some (JVal.obj ks) →
      aggregateTiles (JVal.obj fs) = Except.ok emptyAgg) ∧
    (∀ fs, lookupField fs "tiles" = some JVal.null →
      aggregateTiles (JVal.obj fs) = Except.error ()) ∧
    (∀ fs q, lookupField fs "tiles" = some (JVal.num q) →
      aggregateTiles (JVal.obj fs) = Except.error ()) ∧
    (∀ fs bb, lookupField fs "tiles" = some (JVal.bool bb) →
      aggregateTiles (JVal.obj fs) = Except.error ()) := by
  refine ⟨?_, ?_, ?_, ?_, ?_, ?_, ?_⟩
  · intro fs h
    rw [aggregateTiles, tilesOf, h]
    rfl
  · intro v h
    cases v with
    | null => rfl
    | bool b => rfl
    | num q => rfl
    | numNF x => rfl
    | str s => rfl
    | arr xs => rfl
    | obj fs => simp [isDict] at h
  · intro fs s h
    rw [aggregateTiles, tilesOf, h]
    have hall : ∀ t ∈ s.toList.map (fun c => JVal.str (String.mk [c])), isDict t = false := by
      intro t ht
      rcases List.mem_map.mp ht with ⟨c, _, rfl⟩
      rfl
    simpa [pyIter] using runTiles_all_skipped _ hall emptyAgg
  · intro fs ks h
    rw [aggregateTiles, tilesOf, h]
    have hall : ∀ t ∈ ks.map (fun kv => JVal.str kv.1), isDict t = false := by
      intro t ht
      rcases List.mem_map.mp ht with ⟨kv, _, rfl⟩
      rfl
    simpa [pyIter] using runTiles_all_skipped _ hall emptyAgg
  · intro fs h
    rw [aggregateTiles, tilesOf, h]
    rfl
  · intro fs q h
    rw [aggregateTiles, tilesOf, h]
    rfl
  · intro fs bb h
    rw [aggregateTiles, tilesOf, h]
    rfl

/-- Witness for C8: the empty response document aggregates to three empty
sequences. -/
theorem C8_tiles_field_handling_witness :
    aggregateTiles (JVal.obj []) = Except.ok emptyAgg :=
  C8_tiles_field_handling.1 [] rfl

/-!  C9. -/

/-- A metadata value with one key removed (for stating that the caption key
plays no role in coordinate derivation). -/
def eraseKeyJ (m : JVal) (k : String) : JVal :=
  match m with
  | JVal.obj fs => JVal.obj (fs.filter (fun kv => kv.1 != k))
  | v => v

/-- Looking up a different key is unaffected by filtering one key out. -/
lemma lookupField_filter_ne (k k' : String) (h : k' ≠ k) :
    ∀ fs : List (String × JVal),
      lookupField (fs.filter (fun kv => kv.1 != k)) k' = lookupField fs k'
  | [] => rfl
  | kv :: fs => by
    rw [List.filter_cons]
    by_cases hk : (kv.1 != k) = true
    · rw [if_pos hk]
      by_cases he : (kv.1 == k') = true
      · simp [lookupField, List.find?, he]
      · have hf : ((fun kv : String × JVal => kv.1 == k') kv) = false := by
          simpa using he
        simp only [lookupField, List.find?, hf]
        exact lookupField_filter_ne k k' h fs
    · rw [if_neg hk]
      have hkk : kv.1 = k := by
        simpa using hk
      have hf : ((fun kv : String × JVal => kv.1 == k') kv) = false := by
        simp [hkk]
        exact fun e => h e.symm
      simp only [lookupField, List.find?, hf]
      exact lookupField_filter_ne k k' h fs

/-- pyGet through an erasure of a different key. -/
lemma pyGet_erase (m : JVal) (k k' : String) (h : k' ≠ k) :
    pyGet (eraseKeyJ m k) k' = pyGet m k' := by
  cases m <;> simp [eraseKeyJ, pyGet, lookupField_filter_ne k k' h]

/-- hasKey through an erasure of a different key. -/
lemma hasKey_erase (m : JVal) (k k' : String) (h : k' ≠ k) :
    hasKey (eraseKeyJ m k) k' = hasKey m k' := by
  cases m <;> simp [eraseKeyJ, hasKey, lookupField_filter_ne k k' h]

/-- Erasure does not change what kind of value the metadata is. -/
lemma isDict_erase (m : JVal) (k : String) : isDict (eraseKeyJ m k) = isDict m := by
  cases m <;> rfl

/-- The raw bbox candidate ignores the caption key. -/
lemma rawBBoxOf_erase_caption (m : JVal) :
    rawBBoxOf (eraseKeyJ m "caption") = rawBBoxOf m := by
  rw [rawBBoxOf, rawBBoxOf,
    pyGet_erase m "caption" "bbox" (by decide),
    pyGet_erase m "caption" "misc" (by decide)]

/-- The first present coordinate key ignores the caption key, for key lists
that do not mention it. -/
lemma firstPresentKey_erase_caption (m : JVal) :
    ∀ keys : List String, "caption" ∉ keys →
      firstPresentKey (eraseKeyJ m "caption") keys = firstPresentKey m keys
  | [], _ => rfl
  | k :: ks, h => by
    have hk : k ≠ "caption" := fun e => h (e ▸ List.mem_cons_self k ks)
    rw [firstPresentKey, firstPresentKey,
      hasKey_erase m "caption" k hk, pyGet_erase m "caption" k hk,
      firstPresentKey_erase_caption m ks (fun hh => h (List.mem_cons_of_mem k hh))]

/-- The explicit lat/lon fallback ignores the caption key. -/
lemma latlonFallback_erase_caption (m : JVal) :
    latlonFallback (eraseKeyJ m "caption") = latlonFallback m := by
  rw [latlonFallback, latlonFallback, isDict_erase,
    firstPresentKey_erase_caption m ["lat", "latitude", "y"] (by decide),
    firstPresentKey_erase_caption m ["lon", "lng", "longitude", "x"] (by decide)]

/-- Coordinate derivation ignores the caption key entirely. -/
lemma deriveLatlon_erase_caption (m : JVal) :
    deriveLatlon (eraseKeyJ m "caption") = deriveLatlon m := by
  rw [deriveLatlon, deriveLatlon, isDict_erase, rawBBoxOf_erase_caption,
    latlonFallback_erase_caption]

/-- The caption resolution rule, with the dict guard absorbed (pyGet on a
non-dict is None, which is falsy). -/
lemma captionOf_eq_rule (m : JVal) :
    captionOf m =
      (if pyTruthy (pyGet m "caption") then pyStr (pyGet m "caption") else "") := by
  cases m <;> rfl

/-- Counterexample to C9: a usable tile whose caption field exists and is
non-null but falsy (False).  The claim demands the stringification "False";
the code emits the empty string because line 289 tests truthiness, not
presence. -/
theorem C9_falsy_caption_counterexample :
    processTile (JVal.obj [("metadata", JVal.obj [
        ("bbox", JVal.arr [JVal.num 0, JVal.num 0, JVal.num 2, JVal.num 2]),
        ("caption", JVal.bool false)])]) =
      Except.ok (some ((1, 1), "", none)) ∧
    pyStr (JVal.bool false) = "False" := by
  constructor
  · have h :
        processTile (JVal.obj [("metadata", JVal.obj [
            ("bbox", JVal.arr [JVal.num 0, JVal.num 0, JVal.num 2, JVal.num 2]),
            ("caption", JVal.bool false)])]) =
          Except.ok (some ((((0 : ℚ) + 2) / 2, ((0 : ℚ) + 2) / 2), "", none)) := rfl
    have e : ((0 : ℚ) + 2) / 2 = 1 := by norm_num
    rw [e] at h
    exact h
  · rfl

/-- C9 as amended: the emitted caption is the stringification of
tile.metadata.caption whenever that field is truthy and the empty string
otherwise; and the caption plays no part in whether the tile is emitted —
erasing it leaves the derived coordinate unchanged, and a tile is emitted
exactly when the coordinate stage yields a coordinate. -/
theorem C9_caption_truthiness_rule (t : JVal) :
    (∀ p cap th, processTile t = Except.ok (some (p, cap, th)) →
      cap = (if pyTruthy (pyGet (metadataOf t) "caption")
             then pyStr (pyGet (metadataOf t) "caption") else "")) ∧
    (deriveLatlon (eraseKeyJ (metadataOf t) "caption") = deriveLatlon (metadataOf t)) ∧
    ((∃ p cap th, processTile t = Except.ok (some (p, cap, th))) ↔
      (∃ p, deriveLatlon (metadataOf t) = Except.ok (some p))) := by
  refine ⟨?_, deriveLatlon_erase_caption _, ?_, ?_⟩
  · intro p cap th h
    rw [processTile] at h
    split at h
    · simp at h
    next latlon _ =>
      cases latlon with
      | none => simp at h
      | some p2 =>
        simp only [Except.ok.injEq, Option.some.injEq] at h
        rw [← captionOf_eq_rule]
        exact (congrArg (fun x => x.2.1) h).symm
  · rintro ⟨p, cap, th, h⟩
    rw [processTile] at h
    split at h
    · simp at h
    next latlon heq =>
      cases latlon with
      | none => simp at h
      | some p2 => exact ⟨p2, heq⟩
  · rintro ⟨p, h⟩
    rw [processTile, h]
    exact ⟨p, captionOf (metadataOf t), thumbnailOf t, rfl⟩

/-- Witness for C9: a truthy caption is stringified into the emitted triple. -/
theorem C9_caption_truthiness_rule_witness :
    "Park" = (if pyTruthy (pyGet (metadataOf (JVal.obj [("metadata", JVal.obj [
        ("bbox", JVal.arr [JVal.num 0, JVal.num 0, JVal.num 2, JVal.num 2]),
        ("caption", JVal.str "Park")])])) "caption")
      then pyStr (pyGet (metadataOf (JVal.obj [("metadata", JVal.obj [
        ("bbox", JVal.arr [JVal.num 0, JVal.num 0, JVal.num 2, JVal.num 2]),
        ("caption", JVal.str "Park")])])) "caption") else "") :=
  (C9_caption_truthiness_rule _).1 (((0 : ℚ) + 2) / 2, ((0 : ℚ) + 2) / 2) "Park" none rfl

/-!  C10. -/

/-- C10: a tiles element that is not a JSON object is treated exactly like an
unusable tile: it is skipped without raising, and its presence anywhere in
the tiles array changes nothing about the aggregation. -/
theorem C10_non_object_tile_skipped (v : JVal) (acc : AggResult) (ts1 ts2 : List JVal)
    (h : isDict v = false) :
    processTile v = Except.ok none ∧
    runTiles acc (ts1 ++ v :: ts2) = runTiles acc (ts1 ++ ts2) := by
  refine ⟨processTile_not_dict v h, ?_⟩
  induction ts1 generalizing acc with
  | nil =>
    simp only [List.nil_append]
    rw [runTiles, aggStep, processTile_not_dict v h]
  | cons t ts ih =>
    simp only [List.cons_append]
    rw [runTiles, runTiles]
    rcases hs : aggStep acc t with e | acc2
    · rfl
    · exact ih acc2

/-- Witness for C10: a bare number among the tiles is skipped and leaves the
run unchanged. -/
theorem C10_non_object_tile_skipped_witness :
    processTile (JVal.num 3) = Except.ok none ∧
    runTiles emptyAgg [JVal.num 3] = runTiles emptyAgg [] :=
  C10_non_object_tile_skipped (JVal.num 3) emptyAgg [] [] rfl

end TerraByte
